import Mathlib

/-!
Shallow embedding of the web-PaddleOCR batch-processing service:
the CLIP page matcher (clip_service.py), the task database layer
(task_database.py), the stage workers (batch_processor.py) and the
task-creation endpoint (app.py), together with theorems about them.

Similarity scores, thresholds and REAL columns are modelled as rationals;
TEXT columns as strings; nullable columns as Option; SQLite rows as Lean
structures and tables as lists of rows.
-/

namespace ClipService

/-- One entry of the all_scores list built by match_pdf_page
(clip_service.py): the 1-based page number together with the positive and
negative similarity of that page. -/
structure PageScore where
  page : Nat
  positive_similarity : ℚ
  negative_similarity : ℚ
deriving DecidableEq, Repr

/-- One entry of the candidates list built by match_pdf_page: the 0-based
page index together with the two similarities.  The page_image field of the
source dict is dropped; the void-check collaborator is modelled as an oracle
on the page index instead. -/
structure Candidate where
  page_index : Nat
  positive_similarity : ℚ
  negative_similarity : ℚ
deriving DecidableEq, Repr

instance : Inhabited Candidate := ⟨⟨0, 0, 0⟩⟩

/-- The all_scores list of match_pdf_page.  The input scores gives, for each
page in order, the pair (positive similarity, negative similarity) as computed
by compute_image_similarity; pages are numbered from 1. -/
def allScores (scores : List (ℚ × ℚ)) : List PageScore :=
  scores.enum.map (fun p =>
    { page := p.1 + 1, positive_similarity := p.2.1, negative_similarity := p.2.2 })

/-- The candidates list of match_pdf_page: pages whose positive similarity
reaches positive_threshold and whose negative similarity does not exceed
negative_threshold, in page order. -/
def candidates (scores : List (ℚ × ℚ)) (positive_threshold negative_threshold : ℚ) :
    List Candidate :=
  (scores.enum.filter (fun p =>
      p.2.1 ≥ positive_threshold ∧ p.2.2 ≤ negative_threshold)).map
    (fun p =>
      { page_index := p.1, positive_similarity := p.2.1, negative_similarity := p.2.2 })

/-- Insert a candidate into a list that is already sorted by descending
positive similarity, before the first element of strictly smaller positive
similarity.  Folding this over the list reproduces the stable descending sort
performed by candidates.sort(key=..., reverse=True) in match_pdf_page. -/
def insertDescByPos (c : Candidate) : List Candidate → List Candidate
  | [] => [c]
  | d :: ds =>
    if d.positive_similarity ≤ c.positive_similarity then c :: d :: ds
    else d :: insertDescByPos c ds

/-- Stable sort of the candidate list by descending positive similarity,
modelling the Python list.sort call (Timsort is stable; so is this insertion
sort, and a stable sort by the same key is unique). -/
def sortCandidatesDesc : List Candidate → List Candidate
  | [] => []
  | c :: cs => insertDescByPos c (sortCandidatesDesc cs)

/-- Python min(candidate_list, key=negative similarity) on a non-empty list:
the first element with minimal negative similarity.  On the empty list Python
would raise; the default candidate is returned instead, and every use below is
on a provably non-empty list. -/
def minByNegD (cs : List Candidate) : Candidate :=
  match cs with
  | [] => default
  | c :: rest =>
    rest.foldl
      (fun best x =>
        if x.negative_similarity < best.negative_similarity then x else best) c

/-- The skip_voided loop of match_pdf_page over the first check_count sorted
candidates: voided candidates are accumulated, in order, into
voided_pages_info until the first non-voided candidate is found and selected.
Returns the accumulated voided candidates and the selected one, if any. -/
def scanVoided (isVoided : Nat → Bool) : List Candidate → List Candidate × Option Candidate
  | [] => ([], none)
  | c :: cs =>
    if isVoided c.page_index then
      let r := scanVoided isVoided cs
      (c :: r.1, r.2)
    else ([], some c)

/-- Python max(xs, default=0). -/
def pymaxD0 : List ℚ → ℚ
  | [] => 0
  | x :: xs => xs.foldl max x

/-- Python min(xs) on a non-empty list; 0 for the empty list, on which Python
would raise (every use below is on a provably non-empty list). -/
def pyminQ : List ℚ → ℚ
  | [] => 0
  | x :: xs => xs.foldl min x

/-- Diagnostic carried by the failure response built when no page is a
candidate (clip_service.py, the two error_msg branches): either no page
reached the positive threshold, reporting the maximal positive score, or some
pages reached it but none cleared the negative threshold, reporting how many
qualified and the minimal negative score among them.  The formatted message
is abstracted to its embedded data. -/
inductive NoCandidateDiag where
  | posBelowThreshold (max_pos : ℚ)
  | negAboveThreshold (qualified_count : Nat) (min_neg_in_qualified : ℚ)
deriving DecidableEq, Repr

/-- Outcome of match_pdf_page: a successful match carrying the selected
candidate and the voided-page report, a failure because no page was a
candidate, or a failure because every checked top candidate was voided.
Each outcome carries the all_page_scores list of the response. -/
inductive MatchOutcome where
  | matched (best : Candidate) (voided_pages_info : List Candidate)
      (all_page_scores : List PageScore)
  | noCandidate (diag : NoCandidateDiag) (all_page_scores : List PageScore)
  | allTopNVoided (voided_pages_info : List Candidate)
      (all_page_scores : List PageScore)
deriving DecidableEq, Repr

/-- Page-selection logic of match_pdf_page (clip_service.py), starting from
the per-page similarity scores.  The check_page_voided collaborator is
abstracted as the oracle isVoided on page indices. -/
def match_pdf_page (scores : List (ℚ × ℚ)) (positive_threshold negative_threshold : ℚ)
    (skip_voided : Bool) (top_n_for_void_check : Nat) (isVoided : Nat → Bool) :
    MatchOutcome :=
  let all_scores := allScores scores
  let cands := candidates scores positive_threshold negative_threshold
  if cands.isEmpty then
    let max_pos := pymaxD0 (all_scores.map PageScore.positive_similarity)
    let qualified := all_scores.filter (fun s => s.positive_similarity ≥ positive_threshold)
    if qualified.isEmpty then
      .noCandidate (.posBelowThreshold max_pos) all_scores
    else
      .noCandidate
        (.negAboveThreshold qualified.length
          (pyminQ (qualified.map PageScore.negative_similarity))) all_scores
  else
    let sorted := sortCandidatesDesc cands
    if skip_voided then
      let check_count := min top_n_for_void_check sorted.length
      let scanned := scanVoided isVoided (sorted.take check_count)
      match scanned.2 with
      | some best => .matched best scanned.1 all_scores
      | none =>
        if check_count < sorted.length then
          .matched (minByNegD ((sorted.drop check_count).take 5)) scanned.1 all_scores
        else
          .allTopNVoided scanned.1 all_scores
    else
      .matched (minByNegD (sorted.take 5)) [] all_scores

end ClipService

namespace TaskDatabase

/-- One row of the batch_tasks table (task_database.py, init schema).
Nullable TEXT and INTEGER columns are Option; REAL progress is a rational;
is_deleted (INTEGER 0 or 1) is a Bool.  The estimated_completion column is
never written by the code and is omitted. -/
structure TaskRow where
  task_id : String
  task_name : String
  source_path : String
  status : String
  stage : Nat
  progress : ℚ
  total_files : Nat
  processed_files : Option Nat
  failed_files : Option Nat
  created_at : String
  started_at : Option String
  updated_at : Option String
  completed_at : Option String
  stage1_config : Option String
  stage2_config : Option String
  error_message : Option String
  is_deleted : Bool
deriving DecidableEq, Repr

/-- One row of the batch_files table.  The stage1_result and stage2_result
columns are kept as stored payloads; matching_score (REAL) is a rational. -/
structure FileRow where
  id : Nat
  task_id : String
  file_path : String
  file_name : String
  file_size : Option Nat
  file_type : Option String
  status : String
  stage1_status : String
  stage2_status : String
  stage1_result : Option String
  stage2_result : Option String
  matched_page_number : Option Nat
  matched_page_base64 : Option String
  matching_score : Option ℚ
  ocr_result : Option String
  extracted_keywords : Option String
  error_message : Option String
  processed_at : Option String
deriving DecidableEq, Repr

/-- The SQLite database state: the two tables, plus the AUTOINCREMENT counter
for batch_files.id. -/
structure DB where
  tasks : List TaskRow
  files : List FileRow
  next_file_id : Nat
deriving DecidableEq, Repr

/-- File metadata handed to add_files_to_task by scan_directory
(batch_processor.py). -/
structure FileInfo where
  file_path : String
  file_name : String
  file_size : Option Nat
  file_type : Option String
deriving DecidableEq, Repr

/-- create_batch_task (task_database.py): INSERT INTO batch_tasks with
status created; the remaining columns take their schema defaults.  The
Boolean success flag of the source (false only on an SQL error such as a
duplicated primary key) is dropped: the successful path is modelled. -/
def create_batch_task (db : DB) (task_id task_name source_path now : String) : DB :=
  { db with
    tasks := db.tasks ++ [{
      task_id := task_id, task_name := task_name, source_path := source_path,
      status := "created", stage := 0, progress := 0, total_files := 0,
      processed_files := some 0, failed_files := some 0,
      created_at := now, started_at := none, updated_at := some now,
      completed_at := none, stage1_config := none, stage2_config := none,
      error_message := none, is_deleted := false }] }

/-- A freshly inserted batch_files row: the listed columns from the INSERT of
add_files_to_task, every other column at its schema default. -/
def newFileRow (id : Nat) (task_id : String) (fi : FileInfo) : FileRow :=
  { id := id, task_id := task_id, file_path := fi.file_path,
    file_name := fi.file_name, file_size := fi.file_size, file_type := fi.file_type,
    status := "pending", stage1_status := "pending", stage2_status := "pending",
    stage1_result := none, stage2_result := none, matched_page_number := none,
    matched_page_base64 := none, matching_score := none, ocr_result := none,
    extracted_keywords := none, error_message := none, processed_at := none }

/-- add_files_to_task (task_database.py): executemany INSERT of the file
rows, then an UPDATE of the total_files counter of the task from a COUNT
subquery. -/
def add_files_to_task (db : DB) (task_id : String) (files : List FileInfo)
    (now : String) : DB :=
  let inserted := db.files ++ files.enum.map (fun p => newFileRow (db.next_file_id + p.1) task_id p.2)
  { tasks := db.tasks.map (fun t =>
      if t.task_id = task_id then
        { t with total_files := inserted.countP (fun f => f.task_id = task_id),
                 updated_at := some now }
      else t),
    files := inserted,
    next_file_id := db.next_file_id + files.length }

/-- get_task_by_id (task_database.py): SELECT the row with the given primary
key, excluding soft-deleted rows. -/
def get_task_by_id (db : DB) (task_id : String) : Option TaskRow :=
  db.tasks.find? (fun t => t.task_id = task_id ∧ t.is_deleted = false)

/-- Insert a file row into a list already sorted by ascending id, modelling
one step of the ORDER BY id of the pending-file queries. -/
def insertAscById (f : FileRow) : List FileRow → List FileRow
  | [] => [f]
  | g :: gs => if f.id ≤ g.id then f :: g :: gs else g :: insertAscById f gs

/-- ORDER BY id over a result set. -/
def sortById : List FileRow → List FileRow
  | [] => []
  | f :: fs => insertAscById f (sortById fs)

/-- get_pending_files_for_stage2 (task_database.py): SELECT the files of the
task whose stage1_status is completed and whose stage2_status is pending,
ORDER BY id, LIMIT limit. -/
def get_pending_files_for_stage2 (db : DB) (task_id : String) (limit : Nat) :
    List FileRow :=
  (sortById (db.files.filter (fun f =>
      f.task_id = task_id ∧ f.stage1_status = "completed" ∧
      f.stage2_status = "pending"))).take limit

/-- update_file_stage1_result (task_database.py): UPDATE of the stage-1
columns of the row with the given id.  The overall status column is not
in the SET list. -/
def update_file_stage1_result (db : DB) (file_id : Nat)
    (matched_page_number : Option Nat) (matched_page_base64 : Option String)
    (matching_score : Option ℚ) (status : String) (error_message : Option String)
    (now : String) : DB :=
  { db with
    files := db.files.map (fun f =>
      if f.id = file_id then
        { f with stage1_status := status,
                 matched_page_number := matched_page_number,
                 matched_page_base64 := matched_page_base64,
                 matching_score := matching_score,
                 error_message := error_message,
                 processed_at := some now }
      else f) }

/-- update_file_stage2_result (task_database.py): UPDATE of the stage-2
columns of the row with the given id; the overall status column is set to the
same value as stage2_status. -/
def update_file_stage2_result (db : DB) (file_id : Nat)
    (ocr_result : Option String) (extracted_keywords : Option String)
    (status : String) (error_message : Option String) (now : String) : DB :=
  { db with
    files := db.files.map (fun f =>
      if f.id = file_id then
        { f with stage2_status := status,
                 ocr_result := ocr_result,
                 extracted_keywords := extracted_keywords,
                 status := status,
                 error_message := error_message,
                 processed_at := some now }
      else f) }

/-- SQLite SUM(CASE WHEN p THEN 1 ELSE 0 END) over a result set: NULL on an
empty set, otherwise the count of rows satisfying p. -/
def sumCaseCount (rows : List FileRow) (p : FileRow → Bool) : Option Nat :=
  if rows.isEmpty then none else some (rows.countP p)

/-- update_task_progress (task_database.py): recompute the progress columns
of the task from aggregate counts over its files.  The completed and failed
aggregates are SUM(CASE ...) and hence NULL for a task without files. -/
def update_task_progress (db : DB) (task_id : String) (now : String) : DB :=
  let rows := db.files.filter (fun f => f.task_id = task_id)
  let total := rows.length
  let completed := sumCaseCount rows (fun f => f.stage2_status = "completed")
  let failed := sumCaseCount rows (fun f => f.status = "failed")
  let progress : ℚ :=
    if 0 < total then
      ((rows.countP (fun f => f.stage2_status = "completed") : ℚ) / total) * 100
    else 0
  { db with
    tasks := db.tasks.map (fun t =>
      if t.task_id = task_id then
        { t with progress := progress, processed_files := completed,
                 failed_files := failed, updated_at := some now }
      else t) }

/-- Aggregate row returned by get_task_statistics (task_database.py).  The
per-status counts are SUM(CASE ...) aggregates and hence NULL (none) for a
task with no files; COUNT is 0 there.  The avg_matching_score aggregate is
not read by any code under study and is omitted. -/
structure TaskStatistics where
  total_files : Nat
  stage1_completed : Option Nat
  stage1_failed : Option Nat
  stage1_pending : Option Nat
  stage2_completed : Option Nat
  stage2_failed : Option Nat
  stage2_pending : Option Nat
deriving DecidableEq, Repr

/-- get_task_statistics (task_database.py). -/
def get_task_statistics (db : DB) (task_id : String) : TaskStatistics :=
  let rows := db.files.filter (fun f => f.task_id = task_id)
  { total_files := rows.length,
    stage1_completed := sumCaseCount rows (fun f => f.stage1_status = "completed"),
    stage1_failed := sumCaseCount rows (fun f => f.stage1_status = "failed"),
    stage1_pending := sumCaseCount rows (fun f => f.stage1_status = "pending"),
    stage2_completed := sumCaseCount rows (fun f => f.stage2_status = "completed"),
    stage2_failed := sumCaseCount rows (fun f => f.stage2_status = "failed"),
    stage2_pending := sumCaseCount rows (fun f => f.stage2_status = "pending") }

/-- reset_task_status_for_resume (task_database.py): UPDATE batch_tasks SET
status running, stage, error_message NULL for the given task; the batch_files
table is not touched. -/
def reset_task_status_for_resume (db : DB) (task_id : String) (stage : Nat)
    (now : String) : DB :=
  { db with
    tasks := db.tasks.map (fun t =>
      if t.task_id = task_id then
        { t with status := "running", stage := stage, error_message := none,
                 updated_at := some now }
      else t) }

end TaskDatabase

namespace BatchProcessor

open TaskDatabase

/-- Payload of a successful CLIP match as extracted by process_file_stage1
from the service response (matched page number, page image, score). -/
structure Stage1Success where
  matched_page_number : Option Nat
  matched_page_base64 : Option String
  matching_score : Option ℚ
deriving DecidableEq, Repr

/-- Result dict of process_file_stage1 (batch_processor.py): either the
success payload or success false with the caught error text. -/
structure Stage1Result where
  success : Bool
  matched_page_number : Option Nat
  matched_page_base64 : Option String
  matching_score : Option ℚ
  error : Option String
deriving DecidableEq, Repr

/-- process_file_stage1 (batch_processor.py): the whole HTTP call to the
CLIP service is wrapped in try/except, so a collaborator failure (modelled as
the error case of the oracle) is caught and returned as a success false
result carrying the error text; it is never re-raised. -/
def process_file_stage1 (collab : FileRow → Except String Stage1Success)
    (f : FileRow) : Stage1Result :=
  match collab f with
  | .ok r =>
      { success := true, matched_page_number := r.matched_page_number,
        matched_page_base64 := r.matched_page_base64,
        matching_score := r.matching_score, error := none }
  | .error e =>
      { success := false, matched_page_number := none,
        matched_page_base64 := none, matching_score := none, error := some e }

/-- The task_control flags read by the worker loop before each file. -/
structure Control where
  pause : Bool
  stop : Bool
deriving DecidableEq, Repr

/-- Per-file body of the batch loop in process_task_stage1_worker
(batch_processor.py): run stage 1 on the file, record the result row
(completed with the match data, or failed with the error text), then refresh
the task progress counters. -/
def stage1HandleFile (collab : FileRow → Except String Stage1Success)
    (db : DB) (task_id : String) (f : FileRow) (now : String) : DB :=
  let result := process_file_stage1 collab f
  let db2 :=
    if result.success then
      update_file_stage1_result db f.id result.matched_page_number
        result.matched_page_base64 result.matching_score "completed" none now
    else
      update_file_stage1_result db f.id none none none "failed" result.error now
  update_task_progress db2 task_id now

/-- The for-loop of process_task_stage1_worker over one batch of pending
files: the control flags are re-read before each file and break the loop when
set; otherwise every file of the batch is processed in order, whatever the
outcome of the previous files. -/
def process_batch_stage1 (collab : FileRow → Except String Stage1Success)
    (ctrl : Control) (db : DB) (task_id : String) (pending : List FileRow)
    (now : String) : DB :=
  pending.foldl
    (fun db f =>
      if ctrl.stop || ctrl.pause then db
      else stage1HandleFile collab db task_id f now) db

/-- State of the processor module: the database plus the keys of the
processing_tasks registry of launched worker threads. -/
structure ProcState where
  db : DB
  processing : List String
deriving DecidableEq, Repr

/-- Observable outcome of resume_task_from_failure: an exception, the silent
early return taken when the pending count is zero, or the relaunch of the
worker for the given stage. -/
inductive ResumeOutcome where
  | raised (msg : String)
  | noPendingReturn
  | launched (stage : Nat)
deriving DecidableEq, Repr

/-- resume_task_from_failure (batch_processor.py): look the task up, require
a failed or stopped or paused status and no registered worker, read the
pending aggregate of the current stage from get_task_statistics, return
early when it equals 0, otherwise reset the task for resume and launch the
stage worker (modelled as registering the task id).  When the stage is
neither 1 nor 2 the local pending_count is never assigned and Python raises
NameError at its first use. -/
def resume_task_from_failure (s : ProcState) (task_id : String) (now : String) :
    ResumeOutcome × ProcState :=
  match get_task_by_id s.db task_id with
  | none => (.raised "任務不存在", s)
  | some task =>
    if ¬ (task.status = "failed" ∨ task.status = "stopped" ∨ task.status = "paused") then
      (.raised "只有失敗或已停止或暫停的任務才能繼續執行", s)
    else if task_id ∈ s.processing then
      (.raised "任務已在處理中", s)
    else
      let stats := get_task_statistics s.db task_id
      if task.stage = 1 ∨ task.stage = 2 then
        let pending_count :=
          if task.stage = 1 then stats.stage1_pending else stats.stage2_pending
        if pending_count = some 0 then (.noPendingReturn, s)
        else
          (.launched task.stage,
           { db := reset_task_status_for_resume s.db task_id task.stage now,
             processing := s.processing ++ [task_id] })
      else (.raised "NameError: pending_count", s)

end BatchProcessor

namespace App

open TaskDatabase

/-- The filesystem view used by the endpoint: os.path.exists and
os.path.isdir.  Note that os.path.exists applied to the empty string is
always False. -/
structure FS where
  path_exists : String → Bool
  is_dir : String → Bool

/-- JSON body returned by the create endpoint. -/
structure CreateTaskResponse where
  success : Bool
  error : Option String
  task_id : Option String
  total_files : Option Nat
deriving DecidableEq, Repr

/-- create_batch_task endpoint (app.py): validate that the source path
exists and is a directory, insert the task row, scan the directory, reject
when no PDF is found (the task row is already inserted at that point), else
insert the file rows.  uuid4 is abstracted as the supplied task_id and
scan_directory as the scan function. -/
def create_batch_task_endpoint (fs : FS) (scan : String → List FileInfo)
    (db : DB) (task_name source_path task_id now : String) :
    CreateTaskResponse × DB :=
  if fs.path_exists source_path = false then
    ({ success := false, error := some "指定的路徑不存在",
       task_id := none, total_files := none }, db)
  else if fs.is_dir source_path = false then
    ({ success := false, error := some "指定的路徑不是目錄",
       task_id := none, total_files := none }, db)
  else
    let db1 := create_batch_task db task_id task_name source_path now
    let files := scan source_path
    if files.isEmpty then
      ({ success := false, error := some "未找到任何 PDF 檔案",
         task_id := none, total_files := none }, db1)
    else
      ({ success := true, error := none, task_id := some task_id,
         total_files := some files.length },
       add_files_to_task db1 task_id files now)

end App

namespace WitnessInputs

/-- Concrete similarity scores used by the void-fallback witness: three
candidate pages with descending positive similarity. -/
def voidScores : List (ℚ × ℚ) :=
  [(mkRat 9 10, mkRat 1 10), (mkRat 8 10, mkRat 2 10), (mkRat 7 10, 0)]

/-- Void oracle flagging the first two pages as voided. -/
def voidOracle : Nat → Bool := fun i => decide (i = 0 ∨ i = 1)

/-- The sorted candidate list of the void-fallback witness. -/
def voidSorted : List ClipService.Candidate :=
  ClipService.sortCandidatesDesc
    (ClipService.candidates voidScores (mkRat 1 2) (mkRat 1 2))

/-- Concrete similarity scores used by the diagnostic witness: both pages
reach the positive threshold 0.25 but neither clears the negative
threshold 0.30. -/
def diagScores : List (ℚ × ℚ) :=
  [(mkRat 3 10, mkRat 5 10), (mkRat 4 10, mkRat 4 10)]

/-- A freshly scanned file row of task t with both stages pending. -/
def filePending : TaskDatabase.FileRow :=
  { id := 1, task_id := "t", file_path := "/data/a.pdf", file_name := "a.pdf",
    file_size := some 10, file_type := some ".pdf", status := "pending",
    stage1_status := "pending", stage2_status := "pending", stage1_result := none,
    stage2_result := none, matched_page_number := none, matched_page_base64 := none,
    matching_score := none, ocr_result := none, extracted_keywords := none,
    error_message := none, processed_at := none }

/-- A file row of task t with stage 1 completed and stage 2 pending. -/
def fileStage1Done : TaskDatabase.FileRow :=
  { filePending with
    id := 2, stage1_status := "completed", matched_page_base64 := some "img" }

/-- A second all-pending file row of task t. -/
def filePendingB : TaskDatabase.FileRow := { filePending with id := 2 }

/-- A failed task row at stage 1. -/
def taskFailed : TaskDatabase.TaskRow :=
  { task_id := "t", task_name := "batch", source_path := "/data",
    status := "failed", stage := 1, progress := 0, total_files := 2,
    processed_files := some 0, failed_files := some 0, created_at := "c0",
    started_at := some "c1", updated_at := some "c1", completed_at := none,
    stage1_config := none, stage2_config := none,
    error_message := some "boom", is_deleted := false }

/-- Database with one mixed pair of file rows, for the stage-2 query
witness. -/
def dbStage2 : TaskDatabase.DB :=
  { tasks := [taskFailed], files := [fileStage1Done, filePending], next_file_id := 3 }

/-- Database with one failed task and two pending files, for the reset and
batch-loop witnesses. -/
def dbBatch : TaskDatabase.DB :=
  { tasks := [taskFailed], files := [filePending, filePendingB], next_file_id := 3 }

/-- Stage-1 collaborator oracle that fails on file id 1 and succeeds on any
other file. -/
def collabW : TaskDatabase.FileRow → Except String BatchProcessor.Stage1Success :=
  fun g =>
    if g.id = 1 then .error "CLIP boom"
    else .ok { matched_page_number := some 1, matched_page_base64 := some "img",
               matching_score := some (mkRat 1 2) }

/-- Control flags with neither stop nor pause set. -/
def ctrlRun : BatchProcessor.Control := { pause := false, stop := false }

/-- Filesystem on which every path exists and is a directory. -/
def fsAll : App.FS := { path_exists := fun _ => true, is_dir := fun _ => true }

/-- Filesystem on which no path exists. -/
def fsNone : App.FS := { path_exists := fun _ => false, is_dir := fun _ => false }

/-- Directory scan returning a single PDF. -/
def scanOne : String → List TaskDatabase.FileInfo :=
  fun _ => [{ file_path := "/data/a.pdf", file_name := "a.pdf",
              file_size := some 10, file_type := some ".pdf" }]

/-- The empty database. -/
def emptyDB : TaskDatabase.DB := { tasks := [], files := [], next_file_id := 1 }

/-- Processor state with a failed stage-1 task that has no files at all. -/
def stateNoFiles : BatchProcessor.ProcState :=
  { db := { tasks := [{ taskFailed with total_files := 0 }], files := [],
            next_file_id := 1 },
    processing := [] }

/-- Processor state with a failed stage-1 task whose only file has stage 1
completed, so the stage-1 pending aggregate is zero. -/
def stateZeroPending : BatchProcessor.ProcState :=
  { db := { tasks := [{ taskFailed with total_files := 1 }],
            files := [fileStage1Done], next_file_id := 3 },
    processing := [] }

end WitnessInputs

namespace ClipService

/-- The running minimum of the Python min fold is the accumulator or a list
element. -/
theorem foldl_minNeg_mem (a : Candidate) (l : List Candidate) :
    l.foldl (fun best x =>
      if x.negative_similarity < best.negative_similarity then x else best) a = a ∨
    l.foldl (fun best x =>
      if x.negative_similarity < best.negative_similarity then x else best) a ∈ l := by
  induction l generalizing a with
  | nil => exact .inl rfl
  | cons x xs ih =>
    simp only [List.foldl_cons]
    rcases ih (if x.negative_similarity < a.negative_similarity then x else a) with h | h
    · rw [h]
      by_cases hx : x.negative_similarity < a.negative_similarity
      · rw [if_pos hx]; exact .inr (.head _)
      · rw [if_neg hx]; exact .inl rfl
    · exact .inr (.tail _ h)

/-- The running minimum of the Python min fold is a lower bound of the
accumulator and of every list element. -/
theorem foldl_minNeg_le (a : Candidate) (l : List Candidate) :
    (l.foldl (fun best x =>
      if x.negative_similarity < best.negative_similarity then x else best) a).negative_similarity ≤
        a.negative_similarity ∧
    ∀ c ∈ l,
      (l.foldl (fun best x =>
        if x.negative_similarity < best.negative_similarity then x else best) a).negative_similarity ≤
          c.negative_similarity := by
  induction l generalizing a with
  | nil => exact ⟨le_refl _, by simp⟩
  | cons x xs ih =>
    simp only [List.foldl_cons]
    obtain ⟨h1, h2⟩ := ih (if x.negative_similarity < a.negative_similarity then x else a)
    have hacc : (if x.negative_similarity < a.negative_similarity then x
        else a).negative_similarity ≤ a.negative_similarity := by
      by_cases hx : x.negative_similarity < a.negative_similarity
      · rw [if_pos hx]; exact le_of_lt hx
      · rw [if_neg hx]
    have hx2 : (if x.negative_similarity < a.negative_similarity then x
        else a).negative_similarity ≤ x.negative_similarity := by
      by_cases hx : x.negative_similarity < a.negative_similarity
      · rw [if_pos hx]
      · rw [if_neg hx]; exact le_of_not_lt hx
    refine ⟨h1.trans hacc, ?_⟩
    intro c hc
    rcases List.mem_cons.mp hc with rfl | hc
    · exact h1.trans hx2
    · exact h2 c hc

/-- Python min by negative similarity returns an element of its non-empty
input list. -/
theorem minByNegD_mem (c : Candidate) (cs : List Candidate) :
    minByNegD (c :: cs) ∈ c :: cs := by
  rw [minByNegD]
  rcases foldl_minNeg_mem c cs with h | h
  · rw [h]; exact .head _
  · exact .tail _ h

/-- Python min by negative similarity returns a minimizer over its non-empty
input list. -/
theorem minByNegD_le (c : Candidate) (cs : List Candidate) :
    ∀ x ∈ c :: cs, (minByNegD (c :: cs)).negative_similarity ≤ x.negative_similarity := by
  intro x hx
  obtain ⟨h1, h2⟩ := foldl_minNeg_le c cs
  rcases List.mem_cons.mp hx with rfl | hx
  · exact h1
  · exact h2 x hx

theorem length_insertDescByPos (c : Candidate) (l : List Candidate) :
    (insertDescByPos c l).length = l.length + 1 := by
  induction l with
  | nil => rfl
  | cons d ds ih =>
    rw [insertDescByPos]
    by_cases hd : d.positive_similarity ≤ c.positive_similarity
    · rw [if_pos hd]; rfl
    · rw [if_neg hd]; simp [ih]

theorem length_sortCandidatesDesc (l : List Candidate) :
    (sortCandidatesDesc l).length = l.length := by
  induction l with
  | nil => rfl
  | cons c cs ih => rw [sortCandidatesDesc, length_insertDescByPos, ih]; rfl

theorem mem_insertDescByPos {x c : Candidate} {l : List Candidate} :
    x ∈ insertDescByPos c l ↔ x = c ∨ x ∈ l := by
  induction l with
  | nil => simp [insertDescByPos]
  | cons d ds ih =>
    rw [insertDescByPos]
    by_cases hd : d.positive_similarity ≤ c.positive_similarity
    · rw [if_pos hd]
      simp [or_assoc]
    · rw [if_neg hd]
      simp only [List.mem_cons, ih]
      tauto

theorem mem_sortCandidatesDesc {x : Candidate} {l : List Candidate} :
    x ∈ sortCandidatesDesc l ↔ x ∈ l := by
  induction l with
  | nil => simp [sortCandidatesDesc]
  | cons c cs ih =>
    rw [sortCandidatesDesc]
    simp only [mem_insertDescByPos, ih, List.mem_cons]

/-- Inserting into a list sorted by descending positive similarity keeps it
sorted. -/
theorem pairwise_insertDescByPos {c : Candidate} {l : List Candidate}
    (h : l.Pairwise (fun a b => b.positive_similarity ≤ a.positive_similarity)) :
    (insertDescByPos c l).Pairwise
      (fun a b => b.positive_similarity ≤ a.positive_similarity) := by
  induction l with
  | nil => simp [insertDescByPos]
  | cons d ds ih =>
    rw [insertDescByPos]
    rcases List.pairwise_cons.mp h with ⟨hd1, hd2⟩
    by_cases hd : d.positive_similarity ≤ c.positive_similarity
    · rw [if_pos hd]
      refine List.pairwise_cons.mpr ⟨?_, h⟩
      intro x hx
      rcases List.mem_cons.mp hx with rfl | hx
      · exact hd
      · exact (hd1 x hx).trans hd
    · rw [if_neg hd]
      refine List.pairwise_cons.mpr ⟨?_, ih hd2⟩
      intro x hx
      rcases mem_insertDescByPos.mp hx with rfl | hx
      · exact le_of_not_le hd
      · exact hd1 x hx

/-- The candidate sort is sorted by descending positive similarity. -/
theorem sortCandidatesDesc_sorted (l : List Candidate) :
    (sortCandidatesDesc l).Pairwise
      (fun a b => b.positive_similarity ≤ a.positive_similarity) := by
  induction l with
  | nil => simp [sortCandidatesDesc]
  | cons c cs ih => exact pairwise_insertDescByPos ih

/-- The candidate sort is a permutation of its input. -/
theorem sortCandidatesDesc_perm (l : List Candidate) :
    (sortCandidatesDesc l).Perm l := by
  induction l with
  | nil => rfl
  | cons c cs ih =>
    rw [sortCandidatesDesc]
    refine List.Perm.trans ?_ (ih.cons c)
    induction (sortCandidatesDesc cs) with
    | nil => rfl
    | cons d ds ih2 =>
      rw [insertDescByPos]
      by_cases hd : d.positive_similarity ≤ c.positive_similarity
      · rw [if_pos hd]
      · rw [if_neg hd]
        exact List.Perm.trans (ih2.cons d) (List.Perm.swap c d ds)

/-- When every candidate of the checked prefix is voided, the void scan
accumulates the whole prefix and selects nothing. -/
theorem scanVoided_all_voided (isVoided : Nat → Bool) (l : List Candidate)
    (h : ∀ c ∈ l, isVoided c.page_index = true) :
    scanVoided isVoided l = (l, none) := by
  induction l with
  | nil => rfl
  | cons c cs ih =>
    rw [scanVoided, if_pos (h c (.head _)), ih (fun d hd => h d (.tail _ hd))]

theorem sortCandidatesDesc_ne_nil {l : List Candidate} (h : l ≠ []) :
    sortCandidatesDesc l ≠ [] := by
  intro h0
  apply h
  have hl := length_sortCandidatesDesc l
  rw [h0] at hl
  exact List.length_eq_zero.mp hl.symm

/-- Evaluation of match_pdf_page with skip_voided disabled and a non-empty
candidate set: the minimizer of negative similarity over the top 5 of the
descending sort is selected, with an empty voided report. -/
theorem match_pdf_page_skip_false (scores : List (ℚ × ℚ)) (pt nt : ℚ)
    (tn : Nat) (iv : Nat → Bool) (hne : candidates scores pt nt ≠ []) :
    match_pdf_page scores pt nt false tn iv =
      .matched (minByNegD ((sortCandidatesDesc (candidates scores pt nt)).take 5)) []
        (allScores scores) := by
  simp only [match_pdf_page]
  rw [if_neg (by simp [List.isEmpty_iff, hne]), if_neg (by simp)]

/-- Evaluation of match_pdf_page with skip_voided enabled when every top-N
candidate is voided: either the fallback selection from the remaining
candidates, or the all-voided failure, in both cases with the full checked
prefix as voided report. -/
theorem match_pdf_page_skip_true_all_voided (scores : List (ℚ × ℚ)) (pt nt : ℚ)
    (tn : Nat) (iv : Nat → Bool) (hne : candidates scores pt nt ≠ [])
    (hall : ∀ c ∈ (sortCandidatesDesc (candidates scores pt nt)).take
        (min tn (sortCandidatesDesc (candidates scores pt nt)).length),
      iv c.page_index = true) :
    match_pdf_page scores pt nt true tn iv =
      if min tn (sortCandidatesDesc (candidates scores pt nt)).length <
          (sortCandidatesDesc (candidates scores pt nt)).length then
        .matched
          (minByNegD (((sortCandidatesDesc (candidates scores pt nt)).drop
            (min tn (sortCandidatesDesc (candidates scores pt nt)).length)).take 5))
          ((sortCandidatesDesc (candidates scores pt nt)).take
            (min tn (sortCandidatesDesc (candidates scores pt nt)).length))
          (allScores scores)
      else
        .allTopNVoided
          ((sortCandidatesDesc (candidates scores pt nt)).take
            (min tn (sortCandidatesDesc (candidates scores pt nt)).length))
          (allScores scores) := by
  simp only [match_pdf_page]
  rw [if_neg (by simp [List.isEmpty_iff, hne]), if_pos trivial,
    scanVoided_all_voided _ _ hall]

/-- Evaluation of match_pdf_page when no page is a candidate: the two
diagnostic branches. -/
theorem match_pdf_page_no_candidates (scores : List (ℚ × ℚ)) (pt nt : ℚ)
    (sv : Bool) (tn : Nat) (iv : Nat → Bool)
    (hempty : candidates scores pt nt = []) :
    match_pdf_page scores pt nt sv tn iv =
      if ((allScores scores).filter (fun s => s.positive_similarity ≥ pt)).isEmpty then
        .noCandidate
          (.posBelowThreshold (pymaxD0 ((allScores scores).map PageScore.positive_similarity)))
          (allScores scores)
      else
        .noCandidate
          (.negAboveThreshold
            ((allScores scores).filter (fun s => s.positive_similarity ≥ pt)).length
            (pyminQ (((allScores scores).filter
              (fun s => s.positive_similarity ≥ pt)).map PageScore.negative_similarity)))
          (allScores scores) := by
  simp only [match_pdf_page, hempty]
  rw [if_pos (by simp)]

theorem foldl_max_bounds (a : ℚ) (l : List ℚ) :
    a ≤ l.foldl max a ∧ ∀ x ∈ l, x ≤ l.foldl max a := by
  induction l generalizing a with
  | nil => exact ⟨le_refl _, by simp⟩
  | cons x xs ih =>
    simp only [List.foldl_cons]
    obtain ⟨h1, h2⟩ := ih (max a x)
    refine ⟨(le_max_left a x).trans h1, ?_⟩
    intro y hy
    rcases List.mem_cons.mp hy with rfl | hy
    · exact (le_max_right a y).trans h1
    · exact h2 y hy

theorem foldl_max_mem (a : ℚ) (l : List ℚ) :
    l.foldl max a = a ∨ l.foldl max a ∈ l := by
  induction l generalizing a with
  | nil => exact .inl rfl
  | cons x xs ih =>
    simp only [List.foldl_cons]
    rcases ih (max a x) with h | h
    · rcases max_choice a x with hm | hm
      · exact .inl (by rw [h, hm])
      · exact .inr (by rw [h, hm]; exact .head _)
    · exact .inr (.tail _ h)

theorem foldl_min_bounds (a : ℚ) (l : List ℚ) :
    l.foldl min a ≤ a ∧ ∀ x ∈ l, l.foldl min a ≤ x := by
  induction l generalizing a with
  | nil => exact ⟨le_refl _, by simp⟩
  | cons x xs ih =>
    simp only [List.foldl_cons]
    obtain ⟨h1, h2⟩ := ih (min a x)
    refine ⟨h1.trans (min_le_left a x), ?_⟩
    intro y hy
    rcases List.mem_cons.mp hy with rfl | hy
    · exact h1.trans (min_le_right a y)
    · exact h2 y hy

theorem foldl_min_mem (a : ℚ) (l : List ℚ) :
    l.foldl min a = a ∨ l.foldl min a ∈ l := by
  induction l generalizing a with
  | nil => exact .inl rfl
  | cons x xs ih =>
    simp only [List.foldl_cons]
    rcases ih (min a x) with h | h
    · rcases min_choice a x with hm | hm
      · exact .inl (by rw [h, hm])
      · exact .inr (by rw [h, hm]; exact .head _)
    · exact .inr (.tail _ h)

/-- Characterization of the candidate list: a candidate is exactly an
indexed page whose positive similarity reaches the positive threshold and
whose negative similarity does not exceed the negative threshold. -/
theorem mem_candidates_iff (scores : List (ℚ × ℚ)) (pt nt : ℚ) (c : Candidate) :
    c ∈ candidates scores pt nt ↔
      ((c.page_index, (c.positive_similarity, c.negative_similarity)) ∈ scores.enum ∧
        c.positive_similarity ≥ pt ∧ c.negative_similarity ≤ nt) := by
  constructor
  · intro h
    obtain ⟨p, hp, hmk⟩ := List.mem_map.mp h
    obtain ⟨hpe, hpred⟩ := List.mem_filter.mp hp
    subst hmk
    simp only [decide_eq_true_eq] at hpred
    exact ⟨by simpa using hpe, hpred⟩
  · rintro ⟨hmem, h1, h2⟩
    refine List.mem_map.mpr
      ⟨(c.page_index, (c.positive_similarity, c.negative_similarity)),
        List.mem_filter.mpr ⟨hmem, by simp only [decide_eq_true_eq]; exact ⟨h1, h2⟩⟩, ?_⟩
    rfl

/-- C1: when skipVoided is disabled and the candidate set is non-empty, the
matcher selects, among the top 5 candidates of the list sorted by descending
posScore, the candidate with the lowest negScore: the outcome is a match
whose winner lies in that top 5 and whose negScore is a lower bound of every
top-5 negScore (so a top-5 candidate with negScore 0.05 beats one with 0.10
even at lower posScore). -/
theorem matcher_skip_disabled_picks_min_neg_of_top5 (scores : List (ℚ × ℚ))
    (pt nt : ℚ) (tn : Nat) (iv : Nat → Bool)
    (hne : candidates scores pt nt ≠ []) :
    ∃ best,
      match_pdf_page scores pt nt false tn iv =
        .matched best [] (allScores scores) ∧
      best ∈ (sortCandidatesDesc (candidates scores pt nt)).take 5 ∧
      ∀ c ∈ (sortCandidatesDesc (candidates scores pt nt)).take 5,
        best.negative_similarity ≤ c.negative_similarity := by
  have hsne : sortCandidatesDesc (candidates scores pt nt) ≠ [] :=
    sortCandidatesDesc_ne_nil hne
  obtain ⟨c, cs, htop⟩ :
      ∃ c cs, (sortCandidatesDesc (candidates scores pt nt)).take 5 = c :: cs := by
    cases h5 : (sortCandidatesDesc (candidates scores pt nt)).take 5 with
    | nil =>
      rw [List.take_eq_nil_iff] at h5
      rcases h5 with h5 | h5
      · exact absurd h5 (by norm_num)
      · exact absurd h5 hsne
    | cons c cs => exact ⟨c, cs, rfl⟩
  refine ⟨minByNegD ((sortCandidatesDesc (candidates scores pt nt)).take 5),
    match_pdf_page_skip_false scores pt nt tn iv hne, ?_, ?_⟩
  · rw [htop]; exact minByNegD_mem c cs
  · rw [htop]; exact minByNegD_le c cs

/-- C1 witness: the scenario of the spec with two candidate pages of
negScores 0.10 and 0.05, both in the top 5; the page with negScore 0.05 is
selected although its posScore 0.28 is below the other candidate's 0.30. -/
theorem matcher_skip_disabled_picks_min_neg_of_top5_witness :
    candidates [(mkRat 3 10, mkRat 1 10), (mkRat 28 100, mkRat 5 100)]
        (mkRat 1 4) (mkRat 3 10) ≠ [] ∧
    (∃ best,
      match_pdf_page [(mkRat 3 10, mkRat 1 10), (mkRat 28 100, mkRat 5 100)]
          (mkRat 1 4) (mkRat 3 10) false 5 (fun _ => false) =
        .matched best []
          (allScores [(mkRat 3 10, mkRat 1 10), (mkRat 28 100, mkRat 5 100)]) ∧
      best ∈ (sortCandidatesDesc (candidates
          [(mkRat 3 10, mkRat 1 10), (mkRat 28 100, mkRat 5 100)]
          (mkRat 1 4) (mkRat 3 10))).take 5 ∧
      ∀ c ∈ (sortCandidatesDesc (candidates
          [(mkRat 3 10, mkRat 1 10), (mkRat 28 100, mkRat 5 100)]
          (mkRat 1 4) (mkRat 3 10))).take 5,
        best.negative_similarity ≤ c.negative_similarity) ∧
    match_pdf_page [(mkRat 3 10, mkRat 1 10), (mkRat 28 100, mkRat 5 100)]
        (mkRat 1 4) (mkRat 3 10) false 5 (fun _ => false) =
      .matched ⟨1, mkRat 28 100, mkRat 5 100⟩ []
        [⟨1, mkRat 3 10, mkRat 1 10⟩, ⟨2, mkRat 28 100, mkRat 5 100⟩] :=
  ⟨by decide,
   matcher_skip_disabled_picks_min_neg_of_top5
     [(mkRat 3 10, mkRat 1 10), (mkRat 28 100, mkRat 5 100)]
     (mkRat 1 4) (mkRat 3 10) 5 (fun _ => false) (by decide),
   by decide⟩

/-- C4: for a fixed score list, raising the positive threshold never
increases the number of candidates, raising the negative threshold never
decreases it, and a page is a candidate exactly when its posScore reaches
the positive threshold and its negScore does not exceed the negative
threshold. -/
theorem candidate_set_threshold_monotone (scores : List (ℚ × ℚ))
    (pt pt2 nt nt2 : ℚ) (hpt : pt ≤ pt2) (hnt : nt ≤ nt2) :
    (candidates scores pt2 nt).length ≤ (candidates scores pt nt).length ∧
    (candidates scores pt nt).length ≤ (candidates scores pt nt2).length ∧
    ∀ c, c ∈ candidates scores pt nt ↔
      ((c.page_index, (c.positive_similarity, c.negative_similarity)) ∈ scores.enum ∧
        c.positive_similarity ≥ pt ∧ c.negative_similarity ≤ nt) := by
  refine ⟨?_, ?_, fun c => mem_candidates_iff scores pt nt c⟩
  · rw [candidates, candidates, List.length_map, List.length_map]
    refine (List.monotone_filter_right scores.enum ?_).length_le
    intro a ha
    simp only [decide_eq_true_eq] at ha ⊢
    exact ⟨hpt.trans ha.1, ha.2⟩
  · rw [candidates, candidates, List.length_map, List.length_map]
    refine (List.monotone_filter_right scores.enum ?_).length_le
    intro a ha
    simp only [decide_eq_true_eq] at ha ⊢
    exact ⟨ha.1, ha.2.trans hnt⟩

/-- C4 witness: at thresholds 0.25 and 0.30, raising the positive threshold
to 0.35 and the negative threshold to 0.40 on a concrete score list. -/
theorem candidate_set_threshold_monotone_witness :
    (mkRat 1 4 ≤ mkRat 35 100 ∧ mkRat 3 10 ≤ mkRat 4 10) ∧
    ((candidates [(mkRat 3 10, mkRat 1 10), (mkRat 4 10, mkRat 35 100)]
        (mkRat 35 100) (mkRat 3 10)).length ≤
      (candidates [(mkRat 3 10, mkRat 1 10), (mkRat 4 10, mkRat 35 100)]
        (mkRat 1 4) (mkRat 3 10)).length ∧
    (candidates [(mkRat 3 10, mkRat 1 10), (mkRat 4 10, mkRat 35 100)]
        (mkRat 1 4) (mkRat 3 10)).length ≤
      (candidates [(mkRat 3 10, mkRat 1 10), (mkRat 4 10, mkRat 35 100)]
        (mkRat 1 4) (mkRat 4 10)).length ∧
    ∀ c, c ∈ candidates [(mkRat 3 10, mkRat 1 10), (mkRat 4 10, mkRat 35 100)]
        (mkRat 1 4) (mkRat 3 10) ↔
      ((c.page_index, (c.positive_similarity, c.negative_similarity)) ∈
          [(mkRat 3 10, mkRat 1 10), (mkRat 4 10, mkRat 35 100)].enum ∧
        c.positive_similarity ≥ mkRat 1 4 ∧ c.negative_similarity ≤ mkRat 3 10)) :=
  ⟨by decide,
   candidate_set_threshold_monotone
     [(mkRat 3 10, mkRat 1 10), (mkRat 4 10, mkRat 35 100)]
     (mkRat 1 4) (mkRat 35 100) (mkRat 3 10) (mkRat 4 10) (by decide) (by decide)⟩

/-- C2: with skipVoided enabled, when every one of the top-N candidates
(N the void-check top count capped to the candidate count) is voided, the
voided-page report is exactly the checked prefix of N entries, and either a
candidate beyond the top N exists and the winner is the lowest-negScore
candidate among the top 5 of the remainder, or no candidate remains and the
matcher fails with that report attached. -/
theorem matcher_void_fallback (scores : List (ℚ × ℚ)) (pt nt : ℚ) (tn : Nat)
    (iv : Nat → Bool) (hne : candidates scores pt nt ≠ [])
    (hall : ∀ c ∈ (sortCandidatesDesc (candidates scores pt nt)).take
        (min tn (sortCandidatesDesc (candidates scores pt nt)).length),
      iv c.page_index = true) :
    (sortCandidatesDesc (candidates scores pt nt)).length =
      (candidates scores pt nt).length ∧
    ((sortCandidatesDesc (candidates scores pt nt)).take
        (min tn (sortCandidatesDesc (candidates scores pt nt)).length)).length =
      min tn (sortCandidatesDesc (candidates scores pt nt)).length ∧
    (min tn (sortCandidatesDesc (candidates scores pt nt)).length <
        (sortCandidatesDesc (candidates scores pt nt)).length →
      ∃ best,
        match_pdf_page scores pt nt true tn iv =
          .matched best
            ((sortCandidatesDesc (candidates scores pt nt)).take
              (min tn (sortCandidatesDesc (candidates scores pt nt)).length))
            (allScores scores) ∧
        best ∈ ((sortCandidatesDesc (candidates scores pt nt)).drop
            (min tn (sortCandidatesDesc (candidates scores pt nt)).length)).take 5 ∧
        ∀ c ∈ ((sortCandidatesDesc (candidates scores pt nt)).drop
            (min tn (sortCandidatesDesc (candidates scores pt nt)).length)).take 5,
          best.negative_similarity ≤ c.negative_similarity) ∧
    ((sortCandidatesDesc (candidates scores pt nt)).length ≤
        min tn (sortCandidatesDesc (candidates scores pt nt)).length →
      match_pdf_page scores pt nt true tn iv =
        .allTopNVoided
          ((sortCandidatesDesc (candidates scores pt nt)).take
            (min tn (sortCandidatesDesc (candidates scores pt nt)).length))
          (allScores scores)) := by
  have heval := match_pdf_page_skip_true_all_voided scores pt nt tn iv hne hall
  refine ⟨length_sortCandidatesDesc _, ?_, ?_, ?_⟩
  · rw [List.length_take]
    exact Nat.min_eq_left (Nat.min_le_right _ _)
  · intro hlt
    have hdrop : (sortCandidatesDesc (candidates scores pt nt)).drop
        (min tn (sortCandidatesDesc (candidates scores pt nt)).length) ≠ [] := by
      intro h0
      rw [List.drop_eq_nil_iff] at h0
      exact absurd hlt (Nat.not_lt.mpr h0)
    obtain ⟨c, cs, htop⟩ :
        ∃ c cs, ((sortCandidatesDesc (candidates scores pt nt)).drop
          (min tn (sortCandidatesDesc (candidates scores pt nt)).length)).take 5 =
            c :: cs := by
      cases h5 : ((sortCandidatesDesc (candidates scores pt nt)).drop
          (min tn (sortCandidatesDesc (candidates scores pt nt)).length)).take 5 with
      | nil =>
        rw [List.take_eq_nil_iff] at h5
        rcases h5 with h5 | h5
        · exact absurd h5 (by norm_num)
        · exact absurd h5 hdrop
      | cons c cs => exact ⟨c, cs, rfl⟩
    refine ⟨minByNegD (((sortCandidatesDesc (candidates scores pt nt)).drop
        (min tn (sortCandidatesDesc (candidates scores pt nt)).length)).take 5),
      ?_, ?_, ?_⟩
    · rw [heval, if_pos hlt]
    · rw [htop]; exact minByNegD_mem c cs
    · rw [htop]; exact minByNegD_le c cs
  · intro hge
    rw [heval, if_neg (Nat.not_lt.mpr hge)]

/-- C2 witness: three candidate pages, a void-check top count of 2, both
top-2 candidates voided; the remaining third candidate is selected and the
report has exactly 2 entries. -/
theorem matcher_void_fallback_witness :
    (ClipService.candidates WitnessInputs.voidScores (mkRat 1 2) (mkRat 1 2) ≠ [] ∧
      ∀ c ∈ WitnessInputs.voidSorted.take (min 2 WitnessInputs.voidSorted.length),
        WitnessInputs.voidOracle c.page_index = true) ∧
    (∃ best,
      match_pdf_page WitnessInputs.voidScores (mkRat 1 2) (mkRat 1 2) true 2
          WitnessInputs.voidOracle =
        .matched best (WitnessInputs.voidSorted.take (min 2 WitnessInputs.voidSorted.length))
          (allScores WitnessInputs.voidScores) ∧
      best ∈ (WitnessInputs.voidSorted.drop (min 2 WitnessInputs.voidSorted.length)).take 5 ∧
      ∀ c ∈ (WitnessInputs.voidSorted.drop (min 2 WitnessInputs.voidSorted.length)).take 5,
        best.negative_similarity ≤ c.negative_similarity) ∧
    (WitnessInputs.voidSorted.take (min 2 WitnessInputs.voidSorted.length)).length = 2 :=
  ⟨⟨by decide, by decide⟩,
   (matcher_void_fallback WitnessInputs.voidScores (mkRat 1 2) (mkRat 1 2) 2
     WitnessInputs.voidOracle (by decide) (by decide)).2.2.1 (by decide),
   by decide⟩

theorem allScores_ne_nil {scores : List (ℚ × ℚ)} (h : scores ≠ []) :
    allScores scores ≠ [] := by
  intro h0
  apply h
  have hl : (allScores scores).length = scores.length := by
    rw [allScores, List.length_map, List.enum_length]
  rw [h0] at hl
  exact List.length_eq_zero.mp hl.symm

/-- C3: when no page is a candidate, the matcher fails with a diagnostic
that distinguishes the no-page-reached-the-positive-threshold case,
reporting the maximum positive score (0 by default for an empty document),
from the case where some pages qualified on the positive side but none
cleared the negative threshold, reporting their count and the minimum
negative score among them. -/
theorem matcher_no_candidate_diagnostic (scores : List (ℚ × ℚ)) (pt nt : ℚ)
    (sv : Bool) (tn : Nat) (iv : Nat → Bool)
    (hempty : candidates scores pt nt = []) :
    ∃ d, match_pdf_page scores pt nt sv tn iv = .noCandidate d (allScores scores) ∧
      ((allScores scores).filter (fun s => s.positive_similarity ≥ pt) = [] →
        ∃ m, d = .posBelowThreshold m ∧
          (∀ s ∈ allScores scores, s.positive_similarity ≤ m) ∧
          (scores = [] → m = 0) ∧
          (scores ≠ [] → m ∈ (allScores scores).map PageScore.positive_similarity)) ∧
      ((allScores scores).filter (fun s => s.positive_similarity ≥ pt) ≠ [] →
        ∃ k mn, d = .negAboveThreshold k mn ∧
          k = ((allScores scores).filter (fun s => s.positive_similarity ≥ pt)).length ∧
          (∃ s ∈ allScores scores,
            s.positive_similarity ≥ pt ∧ s.negative_similarity = mn) ∧
          (∀ s ∈ allScores scores,
            s.positive_similarity ≥ pt → mn ≤ s.negative_similarity)) := by
  have heval := match_pdf_page_no_candidates scores pt nt sv tn iv hempty
  by_cases hq : (allScores scores).filter (fun s => s.positive_similarity ≥ pt) = []
  · refine ⟨.posBelowThreshold (pymaxD0 ((allScores scores).map PageScore.positive_similarity)),
      ?_, ?_, fun hq2 => absurd hq hq2⟩
    · rw [heval, if_pos (by simp [List.isEmpty_iff, hq])]
    · intro _
      refine ⟨pymaxD0 ((allScores scores).map PageScore.positive_similarity), rfl, ?_, ?_, ?_⟩
      · intro s hs
        have hmem : s.positive_similarity ∈ (allScores scores).map PageScore.positive_similarity :=
          List.mem_map_of_mem _ hs
        cases hmap : (allScores scores).map PageScore.positive_similarity with
        | nil => rw [hmap] at hmem; exact absurd hmem (List.not_mem_nil _)
        | cons x xs =>
          rw [hmap] at hmem
          simp only [pymaxD0]
          obtain ⟨h1, h2⟩ := foldl_max_bounds x xs
          rcases List.mem_cons.mp hmem with h | h
          · rw [h]; exact h1
          · exact h2 _ h
      · intro hsc
        have : allScores scores = [] := by
          rw [allScores, hsc]; rfl
        rw [this]; rfl
      · intro hsc
        have hne := allScores_ne_nil hsc
        cases hall : allScores scores with
        | nil => exact absurd hall hne
        | cons a as =>
          simp only [List.map_cons, pymaxD0]
          rcases foldl_max_mem a.positive_similarity (as.map PageScore.positive_similarity)
            with h | h
          · rw [h]; exact .head _
          · exact .tail _ h
  · refine ⟨.negAboveThreshold
      ((allScores scores).filter (fun s => s.positive_similarity ≥ pt)).length
      (pyminQ (((allScores scores).filter
        (fun s => s.positive_similarity ≥ pt)).map PageScore.negative_similarity)),
      ?_, fun hq2 => absurd hq2 hq, ?_⟩
    · rw [heval, if_neg (by simp [List.isEmpty_iff, hq])]
    · intro _
      cases hf : (allScores scores).filter (fun s => s.positive_similarity ≥ pt) with
      | nil => exact absurd hf hq
      | cons q qs =>
        refine ⟨_, _, rfl, rfl, ?_, ?_⟩
        · simp only [List.map_cons, pyminQ]
          rcases foldl_min_mem q.negative_similarity (qs.map PageScore.negative_similarity)
            with h | h
          · refine ⟨q, ?_, ?_, by rw [h]⟩
            · have := List.mem_filter.mp (hf ▸ List.mem_cons_self q qs)
              exact this.1
            · have := List.mem_filter.mp (hf ▸ List.mem_cons_self q qs)
              simpa using this.2
          · obtain ⟨s, hs, hsn⟩ := List.mem_map.mp h
            have hsf : s ∈ (allScores scores).filter (fun t => t.positive_similarity ≥ pt) := by
              rw [hf]; exact .tail _ hs
            have := List.mem_filter.mp hsf
            exact ⟨s, this.1, by simpa using this.2, hsn⟩
        · intro s hs hsp
          have hsf : s ∈ (allScores scores).filter (fun t => t.positive_similarity ≥ pt) :=
            List.mem_filter.mpr ⟨hs, by simpa using hsp⟩
          rw [hf] at hsf
          simp only [List.map_cons, pyminQ]
          obtain ⟨h1, h2⟩ :=
            foldl_min_bounds q.negative_similarity (qs.map PageScore.negative_similarity)
          rcases List.mem_cons.mp hsf with rfl | hsf
          · exact h1
          · exact h2 _ (List.mem_map_of_mem _ hsf)

/-- C3 witness: two pages qualify on the positive side but none clears the
negative threshold; the diagnostic carries their count 2 and the minimal
negative score 0.40. -/
theorem matcher_no_candidate_diagnostic_witness :
    candidates WitnessInputs.diagScores (mkRat 1 4) (mkRat 3 10) = [] ∧
    (∃ d, match_pdf_page WitnessInputs.diagScores (mkRat 1 4) (mkRat 3 10) false 5
        (fun _ => false) =
      .noCandidate d (allScores WitnessInputs.diagScores) ∧
      ((allScores WitnessInputs.diagScores).filter
          (fun s => s.positive_similarity ≥ mkRat 1 4) = [] →
        ∃ m, d = .posBelowThreshold m ∧
          (∀ s ∈ allScores WitnessInputs.diagScores, s.positive_similarity ≤ m) ∧
          (WitnessInputs.diagScores = [] → m = 0) ∧
          (WitnessInputs.diagScores ≠ [] →
            m ∈ (allScores WitnessInputs.diagScores).map
              ClipService.PageScore.positive_similarity)) ∧
      ((allScores WitnessInputs.diagScores).filter
          (fun s => s.positive_similarity ≥ mkRat 1 4) ≠ [] →
        ∃ k mn, d = .negAboveThreshold k mn ∧
          k = ((allScores WitnessInputs.diagScores).filter
            (fun s => s.positive_similarity ≥ mkRat 1 4)).length ∧
          (∃ s ∈ allScores WitnessInputs.diagScores,
            s.positive_similarity ≥ mkRat 1 4 ∧ s.negative_similarity = mn) ∧
          (∀ s ∈ allScores WitnessInputs.diagScores,
            s.positive_similarity ≥ mkRat 1 4 → mn ≤ s.negative_similarity))) ∧
    match_pdf_page WitnessInputs.diagScores (mkRat 1 4) (mkRat 3 10) false 5
        (fun _ => false) =
      .noCandidate (.negAboveThreshold 2 (mkRat 4 10))
        (allScores WitnessInputs.diagScores) :=
  ⟨by decide,
   matcher_no_candidate_diagnostic WitnessInputs.diagScores (mkRat 1 4) (mkRat 3 10)
     false 5 (fun _ => false) (by decide),
   by decide⟩

end ClipService


namespace TaskDatabase

theorem mem_insertAscById {x f : FileRow} {l : List FileRow} :
    x ∈ insertAscById f l ↔ x = f ∨ x ∈ l := by
  induction l with
  | nil => simp [insertAscById]
  | cons g gs ih =>
    rw [insertAscById]
    by_cases hg : f.id ≤ g.id
    · rw [if_pos hg]; simp
    · rw [if_neg hg]
      simp only [List.mem_cons, ih]
      tauto

theorem mem_sortById {x : FileRow} {l : List FileRow} :
    x ∈ sortById l ↔ x ∈ l := by
  induction l with
  | nil => simp [sortById]
  | cons f fs ih =>
    rw [sortById]
    simp only [mem_insertAscById, ih, List.mem_cons]

theorem pairwise_insertAscById {f : FileRow} {l : List FileRow}
    (h : l.Pairwise (fun a b => a.id ≤ b.id)) :
    (insertAscById f l).Pairwise (fun a b => a.id ≤ b.id) := by
  induction l with
  | nil => simp [insertAscById]
  | cons g gs ih =>
    rw [insertAscById]
    rcases List.pairwise_cons.mp h with ⟨hg1, hg2⟩
    by_cases hg : f.id ≤ g.id
    · rw [if_pos hg]
      refine List.pairwise_cons.mpr ⟨?_, h⟩
      intro x hx
      rcases List.mem_cons.mp hx with rfl | hx
      · exact hg
      · exact hg.trans (hg1 x hx)
    · rw [if_neg hg]
      refine List.pairwise_cons.mpr ⟨?_, ih hg2⟩
      intro x hx
      rcases mem_insertAscById.mp hx with rfl | hx
      · exact Nat.le_of_lt (Nat.lt_of_not_le hg)
      · exact hg1 x hx

theorem pairwise_sortById (l : List FileRow) :
    (sortById l).Pairwise (fun a b => a.id ≤ b.id) := by
  induction l with
  | nil => simp [sortById]
  | cons f fs ih => exact pairwise_insertAscById ih

/-- C5: the stage-2 pending query returns only files of the task whose
stage-1 status is completed and whose stage-2 status is pending, in
ascending insertion-id order; in particular a file whose stage-1 status is
pending never appears in the result, whatever its stage-2 status. -/
theorem stage2_pending_query_gating (db : DB) (task_id : String) (limit : Nat) :
    (∀ f ∈ get_pending_files_for_stage2 db task_id limit,
      f.task_id = task_id ∧ f.stage1_status = "completed" ∧
      f.stage2_status = "pending") ∧
    (get_pending_files_for_stage2 db task_id limit).Pairwise
      (fun a b => a.id ≤ b.id) ∧
    (∀ f, f.stage1_status = "pending" →
      f ∉ get_pending_files_for_stage2 db task_id limit) := by
  have hmem : ∀ f ∈ get_pending_files_for_stage2 db task_id limit,
      f.task_id = task_id ∧ f.stage1_status = "completed" ∧
      f.stage2_status = "pending" := by
    intro f hf
    rw [get_pending_files_for_stage2] at hf
    have h1 := List.mem_of_mem_take hf
    rw [mem_sortById] at h1
    have h2 := List.mem_filter.mp h1
    simpa using h2.2
  refine ⟨hmem, ?_, ?_⟩
  · exact (pairwise_sortById _).sublist (List.take_sublist _ _)
  · intro f hp hmemf
    have hc := (hmem f hmemf).2.1
    rw [hc] at hp
    exact absurd hp (by decide)

/-- C5 witness: on a database holding one stage-1-completed file (id 2) and
one stage-1-pending file (id 1) of the same task, the stage-2 query returns
exactly the completed one. -/
theorem stage2_pending_query_gating_witness :
    ((∀ f ∈ get_pending_files_for_stage2 WitnessInputs.dbStage2 "t" 10,
      f.task_id = "t" ∧ f.stage1_status = "completed" ∧
      f.stage2_status = "pending") ∧
    (get_pending_files_for_stage2 WitnessInputs.dbStage2 "t" 10).Pairwise
      (fun a b => a.id ≤ b.id) ∧
    (∀ f, f.stage1_status = "pending" →
      f ∉ get_pending_files_for_stage2 WitnessInputs.dbStage2 "t" 10)) ∧
    get_pending_files_for_stage2 WitnessInputs.dbStage2 "t" 10 =
      [WitnessInputs.fileStage1Done] :=
  ⟨stage2_pending_query_gating WitnessInputs.dbStage2 "t" 10, by decide⟩

/-- C6: resetting a task for resume rewrites only the task row, setting its
status to running, its stage to the given stage and clearing its error,
while every file row (and the file id counter) is left exactly as it was and
tasks with other ids are untouched. -/
theorem reset_for_resume_frame (db : DB) (task_id : String) (stage : Nat)
    (now : String) :
    (reset_task_status_for_resume db task_id stage now).files = db.files ∧
    (reset_task_status_for_resume db task_id stage now).next_file_id =
      db.next_file_id ∧
    (∀ t2 ∈ (reset_task_status_for_resume db task_id stage now).tasks,
      ∃ t1 ∈ db.tasks,
        t2.task_id = t1.task_id ∧ t2.task_name = t1.task_name ∧
        t2.source_path = t1.source_path ∧
        (t1.task_id = task_id →
          t2.status = "running" ∧ t2.stage = stage ∧ t2.error_message = none) ∧
        (t1.task_id ≠ task_id → t2 = t1)) ∧
    (∀ t1 ∈ db.tasks, t1.task_id ≠ task_id →
      t1 ∈ (reset_task_status_for_resume db task_id stage now).tasks) := by
  refine ⟨rfl, rfl, ?_, ?_⟩
  · intro t2 ht2
    obtain ⟨t1, ht1, hmap⟩ := List.mem_map.mp ht2
    refine ⟨t1, ht1, ?_⟩
    by_cases h : t1.task_id = task_id
    · rw [if_pos h] at hmap
      subst hmap
      exact ⟨rfl, rfl, rfl, fun _ => ⟨rfl, rfl, rfl⟩, fun hne => absurd h hne⟩
    · rw [if_neg h] at hmap
      subst hmap
      exact ⟨rfl, rfl, rfl, fun heq => absurd heq h, fun _ => rfl⟩
  · intro t1 ht1 hne
    refine List.mem_map.mpr ⟨t1, ht1, ?_⟩
    rw [if_neg hne]

/-- C6 witness: resetting the failed stage-1 task of a concrete database for
a stage-2 resume leaves both file rows untouched and rewrites the task row
to running at stage 2 with no error. -/
theorem reset_for_resume_frame_witness :
    ((reset_task_status_for_resume WitnessInputs.dbBatch "t" 2 "now").files =
      WitnessInputs.dbBatch.files ∧
    (reset_task_status_for_resume WitnessInputs.dbBatch "t" 2 "now").next_file_id =
      WitnessInputs.dbBatch.next_file_id ∧
    (∀ t2 ∈ (reset_task_status_for_resume WitnessInputs.dbBatch "t" 2 "now").tasks,
      ∃ t1 ∈ WitnessInputs.dbBatch.tasks,
        t2.task_id = t1.task_id ∧ t2.task_name = t1.task_name ∧
        t2.source_path = t1.source_path ∧
        (t1.task_id = "t" →
          t2.status = "running" ∧ t2.stage = 2 ∧ t2.error_message = none) ∧
        (t1.task_id ≠ "t" → t2 = t1)) ∧
    (∀ t1 ∈ WitnessInputs.dbBatch.tasks, t1.task_id ≠ "t" →
      t1 ∈ (reset_task_status_for_resume WitnessInputs.dbBatch "t" 2 "now").tasks)) ∧
    (∃ t ∈ (reset_task_status_for_resume WitnessInputs.dbBatch "t" 2 "now").tasks,
      t.status = "running" ∧ t.stage = 2 ∧ t.error_message = none) :=
  ⟨reset_for_resume_frame WitnessInputs.dbBatch "t" 2 "now", by decide⟩

/-- C7 counterexample: on a file whose two stages are pending, recording a
failed stage-1 result yields a row whose stage-1 status is failed while its
overall status is still pending, refuting the claimed equivalence between
overall failure and failure of either stage. -/
theorem file_overall_status_iff_cex :
    ∃ g ∈ (update_file_stage1_result
        { tasks := [], files := [WitnessInputs.filePending], next_file_id := 2 } 1
        none none none "failed" (some "CLIP boom") "now").files,
      g.stage1_status = "failed" ∧ g.status ≠ "failed" := by decide

/-- C7 amended: recording a stage-2 result sets the file's overall status to
the recorded stage-2 status, so afterwards the overall status is failed
exactly when the stage-2 status is failed; recording a stage-1 result never
modifies the overall status (a stage-1 failure leaves it at its previous
value, pending by default). -/
theorem file_overall_status_amended (db : DB) (fid : Nat)
    (mpn : Option Nat) (mpb : Option String) (ms : Option ℚ)
    (ocr kw : Option String) (st : String) (e : Option String) (now : String) :
    (∀ g ∈ (update_file_stage2_result db fid ocr kw st e now).files,
      g.id = fid →
        g.status = st ∧ (g.status = "failed" ↔ g.stage2_status = "failed")) ∧
    (∀ g ∈ (update_file_stage1_result db fid mpn mpb ms st e now).files,
      ∃ f ∈ db.files, g.id = f.id ∧ g.status = f.status) := by
  constructor
  · intro g hg hid
    obtain ⟨f, hf, hmap⟩ := List.mem_map.mp hg
    by_cases h : f.id = fid
    · rw [if_pos h] at hmap
      subst hmap
      exact ⟨rfl, Iff.rfl⟩
    · rw [if_neg h] at hmap
      subst hmap
      exact absurd hid h
  · intro g hg
    obtain ⟨f, hf, hmap⟩ := List.mem_map.mp hg
    by_cases h : f.id = fid
    · rw [if_pos h] at hmap
      subst hmap
      exact ⟨f, hf, rfl, rfl⟩
    · rw [if_neg h] at hmap
      subst hmap
      exact ⟨f, hf, rfl, rfl⟩

/-- C7 amended witness: recording a failed stage-2 result on the concrete
stage-1-completed file makes its overall status failed. -/
theorem file_overall_status_amended_witness :
    ((∀ g ∈ (update_file_stage2_result WitnessInputs.dbStage2 2 none none
        "failed" (some "OCR boom") "now").files,
      g.id = 2 →
        g.status = "failed" ∧
        (g.status = "failed" ↔ g.stage2_status = "failed")) ∧
    (∀ g ∈ (update_file_stage1_result WitnessInputs.dbStage2 2 none none none
        "failed" (some "OCR boom") "now").files,
      ∃ f ∈ WitnessInputs.dbStage2.files, g.id = f.id ∧ g.status = f.status)) ∧
    (∃ g ∈ (update_file_stage2_result WitnessInputs.dbStage2 2 none none
        "failed" (some "OCR boom") "now").files,
      g.id = 2 ∧ g.status = "failed" ∧ g.stage2_status = "failed") :=
  ⟨file_overall_status_amended WitnessInputs.dbStage2 2 none none none none none
    "failed" (some "OCR boom") "now", by decide⟩

end TaskDatabase

namespace BatchProcessor

open TaskDatabase

theorem update_task_progress_files (db : DB) (tid now : String) :
    (update_task_progress db tid now).files = db.files := rfl

theorem mem_files_update_stage1_of_ne {g : FileRow} {db : DB} {fid : Nat}
    (mpn : Option Nat) (mpb : Option String) (ms : Option ℚ) (st : String)
    (e : Option String) (now : String) (hg : g ∈ db.files) (hne : g.id ≠ fid) :
    g ∈ (update_file_stage1_result db fid mpn mpb ms st e now).files :=
  List.mem_map.mpr ⟨g, hg, if_neg hne⟩

theorem exists_id_update_stage1 (db : DB) (fid : Nat) (mpn : Option Nat)
    (mpb : Option String) (ms : Option ℚ) (st : String) (e : Option String)
    (now : String) (h : ∃ g ∈ db.files, g.id = fid) :
    ∃ g ∈ (update_file_stage1_result db fid mpn mpb ms st e now).files,
      g.id = fid ∧ g.stage1_status = st ∧ g.error_message = e := by
  obtain ⟨g, hg, hid⟩ := h
  refine ⟨_, List.mem_map.mpr ⟨g, hg, rfl⟩, ?_, ?_, ?_⟩
  · rw [if_pos hid]; exact hid
  · rw [if_pos hid]
  · rw [if_pos hid]

theorem exists_id_preserved_update_stage1 (db : DB) (fid : Nat)
    (mpn : Option Nat) (mpb : Option String) (ms : Option ℚ) (st : String)
    (e : Option String) (now : String) {n : Nat}
    (h : ∃ g ∈ db.files, g.id = n) :
    ∃ g ∈ (update_file_stage1_result db fid mpn mpb ms st e now).files,
      g.id = n := by
  obtain ⟨g, hg, hid⟩ := h
  refine ⟨_, List.mem_map.mpr ⟨g, hg, rfl⟩, ?_⟩
  by_cases hc : g.id = fid
  · rw [if_pos hc]; exact hid
  · rw [if_neg hc]; exact hid

theorem process_batch_stage1_cons (collab : FileRow → Except String Stage1Success)
    (ctrl : Control) (db : DB) (tid : String) (f : FileRow)
    (rest : List FileRow) (now : String) :
    process_batch_stage1 collab ctrl db tid (f :: rest) now =
      process_batch_stage1 collab ctrl
        (if ctrl.stop || ctrl.pause then db else stage1HandleFile collab db tid f now)
        tid rest now := rfl

theorem process_batch_stage1_append (collab : FileRow → Except String Stage1Success)
    (ctrl : Control) (db : DB) (tid : String) (l1 l2 : List FileRow)
    (now : String) :
    process_batch_stage1 collab ctrl db tid (l1 ++ l2) now =
      process_batch_stage1 collab ctrl
        (process_batch_stage1 collab ctrl db tid l1 now) tid l2 now := by
  rw [process_batch_stage1, process_batch_stage1, process_batch_stage1,
    List.foldl_append]

theorem process_batch_preserves_row (collab : FileRow → Except String Stage1Success)
    (ctrl : Control) (tid now : String) {db : DB} {r : FileRow}
    {rest : List FileRow} (hr : r ∈ db.files) (hne : ∀ g ∈ rest, g.id ≠ r.id) :
    r ∈ (process_batch_stage1 collab ctrl db tid rest now).files := by
  induction rest generalizing db with
  | nil => exact hr
  | cons g gs ih =>
    rw [process_batch_stage1_cons]
    by_cases hc : (ctrl.stop || ctrl.pause) = true
    · rw [if_pos hc]
      exact ih hr (fun x hx => hne x (.tail _ hx))
    · rw [if_neg hc]
      refine ih ?_ (fun x hx => hne x (.tail _ hx))
      have hgr : r.id ≠ g.id := (hne g (.head _)).symm
      show r ∈ (update_task_progress _ tid now).files
      rw [update_task_progress_files]
      by_cases hs : (process_file_stage1 collab g).success = true
      · rw [if_pos hs]
        exact mem_files_update_stage1_of_ne _ _ _ _ _ _ hr hgr
      · rw [if_neg hs]
        exact mem_files_update_stage1_of_ne _ _ _ _ _ _ hr hgr

theorem process_batch_preserves_exists_id
    (collab : FileRow → Except String Stage1Success) (ctrl : Control)
    (tid now : String) {db : DB} {n : Nat} {rest : List FileRow}
    (h : ∃ g ∈ db.files, g.id = n) :
    ∃ g ∈ (process_batch_stage1 collab ctrl db tid rest now).files, g.id = n := by
  induction rest generalizing db with
  | nil => exact h
  | cons g gs ih =>
    rw [process_batch_stage1_cons]
    by_cases hc : (ctrl.stop || ctrl.pause) = true
    · rw [if_pos hc]; exact ih h
    · rw [if_neg hc]
      refine ih ?_
      show ∃ x ∈ (update_task_progress _ tid now).files, x.id = n
      rw [update_task_progress_files]
      by_cases hs : (process_file_stage1 collab g).success = true
      · rw [if_pos hs]
        exact exists_id_preserved_update_stage1 _ _ _ _ _ _ _ _ h
      · rw [if_neg hs]
        exact exists_id_preserved_update_stage1 _ _ _ _ _ _ _ _ h

end BatchProcessor

namespace BatchProcessor

open TaskDatabase

/-- C8: in the stage-1 worker batch loop with no stop or pause signal, the
row recorded for a file depends only on that file's own collaborator
outcome, wherever the file sits in the batch: a collaborator failure is
caught and recorded as that file's failed status carrying the error text,
an ok outcome is recorded as completed — so a failure for one file does not
abort the loop, and the files after it are still attempted and may complete
successfully. -/
theorem batch_loop_partial_failure_isolation
    (collab : FileRow → Except String Stage1Success) (ctrl : Control)
    (db : DB) (task_id : String) (pre post : List FileRow) (f : FileRow)
    (now : String)
    (hstop : ctrl.stop = false) (hpause : ctrl.pause = false)
    (hrow : ∃ g ∈ db.files, g.id = f.id)
    (hpost : ∀ g ∈ post, g.id ≠ f.id) :
    (∀ e, collab f = .error e →
      ∃ g ∈ (process_batch_stage1 collab ctrl db task_id
          (pre ++ f :: post) now).files,
        g.id = f.id ∧ g.stage1_status = "failed" ∧ g.error_message = some e) ∧
    (∀ r, collab f = .ok r →
      ∃ g ∈ (process_batch_stage1 collab ctrl db task_id
          (pre ++ f :: post) now).files,
        g.id = f.id ∧ g.stage1_status = "completed" ∧ g.error_message = none) := by
  have hcond : ¬((ctrl.stop || ctrl.pause) = true) := by
    rw [hstop, hpause]; exact Bool.false_ne_true
  rw [process_batch_stage1_append]
  constructor
  · intro e he
    rw [process_batch_stage1_cons, if_neg hcond]
    have hrow1 : ∃ g ∈ (process_batch_stage1 collab ctrl db task_id
        pre now).files, g.id = f.id :=
      process_batch_preserves_exists_id collab ctrl task_id now hrow
    have hrec : ∃ g ∈ (stage1HandleFile collab
        (process_batch_stage1 collab ctrl db task_id pre now) task_id f now).files,
        g.id = f.id ∧ g.stage1_status = "failed" ∧ g.error_message = some e := by
      show ∃ g ∈ (update_task_progress _ task_id now).files, _
      rw [update_task_progress_files]
      have hres : process_file_stage1 collab f =
          { success := false, matched_page_number := none,
            matched_page_base64 := none, matching_score := none,
            error := some e } := by
        rw [process_file_stage1, he]
      rw [hres, if_neg (by exact Bool.false_ne_true)]
      exact exists_id_update_stage1 _ _ _ _ _ _ _ _ hrow1
    obtain ⟨g, hgmem, hgid, hgs, hge⟩ := hrec
    exact ⟨g, process_batch_preserves_row collab ctrl task_id now hgmem
      (fun x hx => by rw [hgid]; exact hpost x hx), hgid, hgs, hge⟩
  · intro r hr
    rw [process_batch_stage1_cons, if_neg hcond]
    have hrow1 : ∃ g ∈ (process_batch_stage1 collab ctrl db task_id
        pre now).files, g.id = f.id :=
      process_batch_preserves_exists_id collab ctrl task_id now hrow
    have hrec : ∃ g ∈ (stage1HandleFile collab
        (process_batch_stage1 collab ctrl db task_id pre now) task_id f now).files,
        g.id = f.id ∧ g.stage1_status = "completed" ∧ g.error_message = none := by
      show ∃ g ∈ (update_task_progress _ task_id now).files, _
      rw [update_task_progress_files]
      have hres : process_file_stage1 collab f =
          { success := true, matched_page_number := r.matched_page_number,
            matched_page_base64 := r.matched_page_base64,
            matching_score := r.matching_score, error := none } := by
        rw [process_file_stage1, hr]
      rw [hres, if_pos rfl]
      exact exists_id_update_stage1 _ _ _ _ _ _ _ _ hrow1
    obtain ⟨g, hgmem, hgid, hgs, hge⟩ := hrec
    exact ⟨g, process_batch_preserves_row collab ctrl task_id now hgmem
      (fun x hx => by rw [hgid]; exact hpost x hx), hgid, hgs, hge⟩

/-- C8 witness: in a two-file batch where the collaborator fails on the
first file (id 1) and succeeds on the second (id 2), the first file is
recorded failed with the error text and the second is still recorded
completed. -/
theorem batch_loop_partial_failure_isolation_witness :
    (WitnessInputs.ctrlRun.stop = false ∧ WitnessInputs.ctrlRun.pause = false ∧
      (∃ g ∈ WitnessInputs.dbBatch.files, g.id = WitnessInputs.filePending.id) ∧
      (∃ g ∈ WitnessInputs.dbBatch.files, g.id = WitnessInputs.filePendingB.id) ∧
      WitnessInputs.collabW WitnessInputs.filePending = .error "CLIP boom" ∧
      WitnessInputs.collabW WitnessInputs.filePendingB =
        .ok { matched_page_number := some 1, matched_page_base64 := some "img",
              matching_score := some (mkRat 1 2) }) ∧
    (∃ g ∈ (process_batch_stage1 WitnessInputs.collabW WitnessInputs.ctrlRun
        WitnessInputs.dbBatch "t"
        ([] ++ WitnessInputs.filePending :: [WitnessInputs.filePendingB]) "now").files,
      g.id = WitnessInputs.filePending.id ∧ g.stage1_status = "failed" ∧
      g.error_message = some "CLIP boom") ∧
    (∃ g ∈ (process_batch_stage1 WitnessInputs.collabW WitnessInputs.ctrlRun
        WitnessInputs.dbBatch "t"
        ([WitnessInputs.filePending] ++ WitnessInputs.filePendingB :: []) "now").files,
      g.id = WitnessInputs.filePendingB.id ∧ g.stage1_status = "completed" ∧
      g.error_message = none) :=
  ⟨⟨rfl, rfl, by decide, by decide, rfl, rfl⟩,
   (batch_loop_partial_failure_isolation WitnessInputs.collabW WitnessInputs.ctrlRun
     WitnessInputs.dbBatch "t" [] [WitnessInputs.filePendingB]
     WitnessInputs.filePending "now" rfl rfl (by decide) (by decide)).1
     "CLIP boom" rfl,
   (batch_loop_partial_failure_isolation WitnessInputs.collabW WitnessInputs.ctrlRun
     WitnessInputs.dbBatch "t" [WitnessInputs.filePending] []
     WitnessInputs.filePendingB "now" rfl rfl (by decide) (by decide)).2
     { matched_page_number := some 1, matched_page_base64 := some "img",
       matching_score := some (mkRat 1 2) } rfl⟩

end BatchProcessor

namespace App

open TaskDatabase

/-- C9 counterexample: on a filesystem where the source path is an existing
directory and the scan finds one PDF, a request with an empty task name is
not rejected: the endpoint reports success and a task row with an empty name
enters the store. -/
theorem create_task_validation_cex :
    (create_batch_task_endpoint WitnessInputs.fsAll WitnessInputs.scanOne
      WitnessInputs.emptyDB "" "/data" "tid-1" "now").1.success = true ∧
    ∃ t ∈ (create_batch_task_endpoint WitnessInputs.fsAll WitnessInputs.scanOne
      WitnessInputs.emptyDB "" "/data" "tid-1" "now").2.tasks,
      t.task_name = "" := by decide

/-- C9 amended: createTask rejects the request and leaves the store
unchanged whenever the source path does not exist or is not a directory (in
particular for an empty source path, which never exists on a real
filesystem); the task name is not validated, so an empty name alone does not
cause a rejection. -/
theorem create_task_validation_amended (fs : FS)
    (scan : String → List FileInfo) (db : DB)
    (task_name source_path task_id now : String)
    (h : fs.path_exists source_path = false ∨ fs.is_dir source_path = false) :
    (create_batch_task_endpoint fs scan db task_name source_path
      task_id now).1.success = false ∧
    (create_batch_task_endpoint fs scan db task_name source_path
      task_id now).2 = db := by
  by_cases hp : fs.path_exists source_path = false
  · rw [create_batch_task_endpoint, if_pos hp]
    exact ⟨rfl, rfl⟩
  · rcases h with h | h
    · exact absurd h hp
    · rw [create_batch_task_endpoint, if_neg hp, if_pos h]
      exact ⟨rfl, rfl⟩

/-- C9 amended witness: a request whose source path is the empty string on a
filesystem where no path exists is rejected and the store is unchanged. -/
theorem create_task_validation_amended_witness :
    (WitnessInputs.fsNone.path_exists "" = false ∨
      WitnessInputs.fsNone.is_dir "" = false) ∧
    (create_batch_task_endpoint WitnessInputs.fsNone WitnessInputs.scanOne
      WitnessInputs.emptyDB "batch" "" "tid-1" "now").1.success = false ∧
    (create_batch_task_endpoint WitnessInputs.fsNone WitnessInputs.scanOne
      WitnessInputs.emptyDB "batch" "" "tid-1" "now").2 = WitnessInputs.emptyDB :=
  ⟨Or.inl rfl,
   create_task_validation_amended WitnessInputs.fsNone WitnessInputs.scanOne
     WitnessInputs.emptyDB "batch" "" "tid-1" "now" (Or.inl rfl)⟩

end App

namespace BatchProcessor

open TaskDatabase

/-- C10 counterexample: a failed stage-1 task with no files at all has zero
pending files in its current stage, yet resume-from-failure does not return
early: the pending aggregate of an empty file set is NULL (none) rather
than 0, so the zero-pending check fails, the task row is reset to running
and a worker is registered. -/
theorem resume_zero_pending_cex :
    (WitnessInputs.stateNoFiles.db.files.filter
        (fun f => f.task_id = "t" ∧ f.stage1_status = "pending")).length = 0 ∧
    (∃ t ∈ WitnessInputs.stateNoFiles.db.tasks,
      t.task_id = "t" ∧ t.status = "failed" ∧ t.stage = 1) ∧
    (resume_task_from_failure WitnessInputs.stateNoFiles "t" "now").1 =
      .launched 1 ∧
    (resume_task_from_failure WitnessInputs.stateNoFiles "t" "now").2.processing =
      ["t"] ∧
    ∃ t ∈ (resume_task_from_failure WitnessInputs.stateNoFiles "t" "now").2.db.tasks,
      t.task_id = "t" ∧ t.status = "running" := by decide

/-- C10 amended: if resume-from-failure is called on a task whose status is
failed, stopped or paused, with no registered worker, whose stage is 1 or 2,
and whose stage pending aggregate equals 0 (so the task has at least one
file and none of them is pending for that stage), the call returns silently
with the entire state unchanged: the task row keeps its status, stage and
error message, and no worker is registered.  A task with no files escapes
this early return, because its pending aggregate is NULL instead of 0. -/
theorem resume_zero_pending_amended (s : ProcState) (task_id now : String)
    (task : TaskRow)
    (hget : get_task_by_id s.db task_id = some task)
    (hstatus : task.status = "failed" ∨ task.status = "stopped" ∨
      task.status = "paused")
    (hproc : task_id ∉ s.processing)
    (hstage : task.stage = 1 ∨ task.stage = 2)
    (hpending : (if task.stage = 1 then
        (get_task_statistics s.db task_id).stage1_pending
      else (get_task_statistics s.db task_id).stage2_pending) = some 0) :
    resume_task_from_failure s task_id now = (.noPendingReturn, s) := by
  rw [resume_task_from_failure]
  simp only [hget]
  rw [if_neg (not_not_intro hstatus), if_neg hproc, if_pos hstage,
    if_pos hpending]

/-- C10 amended witness: a failed stage-1 task whose single file already
completed stage 1 has a zero stage-1 pending aggregate, and resume returns
silently with the state unchanged. -/
theorem resume_zero_pending_amended_witness :
    (get_task_by_id WitnessInputs.stateZeroPending.db "t" =
        some { WitnessInputs.taskFailed with total_files := 1 } ∧
      ({ WitnessInputs.taskFailed with total_files := 1 } : TaskRow).status =
        "failed" ∧
      "t" ∉ WitnessInputs.stateZeroPending.processing ∧
      ({ WitnessInputs.taskFailed with total_files := 1 } : TaskRow).stage = 1 ∧
      (get_task_statistics WitnessInputs.stateZeroPending.db "t").stage1_pending =
        some 0) ∧
    resume_task_from_failure WitnessInputs.stateZeroPending "t" "now" =
      (.noPendingReturn, WitnessInputs.stateZeroPending) :=
  ⟨⟨by decide, rfl, by decide, rfl, by decide⟩,
   resume_zero_pending_amended WitnessInputs.stateZeroPending "t" "now"
     { WitnessInputs.taskFailed with total_files := 1 }
     (by decide) (Or.inl rfl) (by decide) (Or.inl rfl) (by decide)⟩

end BatchProcessor
